import Mathlib

/-!
Verification of the IITM task-handler service (FastAPI application with
entry modules app.py and main.py, helpers llm_utils.py and github_utils.py).

The Python code is shallowly embedded: Python strings become Lean String
values (sequences of characters; the embedded string helpers model the
ASCII behaviour of the Python string methods actually applied by the code),
every external HTTP interaction is a parameter of the embedding (an
ApiResult oracle: either a status code with a body, or a raised
network-level exception), raised Python exceptions become an Except error
value, and each handler additionally returns the trace of external calls it
performed, in order.
-/

/-! ## Python string primitives used by the source -/

/-- Model of the ASCII case mapping performed by Python str.lower on the
characters that occur here: code points 65..90 map to 97..122, everything
else is unchanged. -/
def pyLowerChar (c : Char) : Char :=
  if 65 ≤ c.toNat ∧ c.toNat ≤ 90 then Char.ofNat (c.toNat + 32) else c

/-- ASCII upper-casing of a single character (used by str.title). -/
def pyUpperChar (c : Char) : Char :=
  if 97 ≤ c.toNat ∧ c.toNat ≤ 122 then Char.ofNat (c.toNat - 32) else c

/-- ASCII letter test (used by str.title to find word starts). -/
def pyIsAlpha (c : Char) : Bool :=
  (decide (65 ≤ c.toNat) && decide (c.toNat ≤ 90)) ||
    (decide (97 ≤ c.toNat) && decide (c.toNat ≤ 122))

/-- Python str.lower, character-wise. -/
def pyLowerStr (s : String) : String :=
  String.mk (s.data.map pyLowerChar)

/-- Python str.replace(old, new) for a single-character pattern, which is a
character-wise map. -/
def pyReplaceCharStr (old new : Char) (s : String) : String :=
  String.mk (s.data.map (fun c => if c = old then new else c))

/-- Python str.title: the first character of each run of letters is
upper-cased, the remaining letters of the run are lower-cased. -/
def pyTitleAux (prevAlpha : Bool) : List Char → List Char
  | [] => []
  | c :: rest =>
    (if pyIsAlpha c then (if prevAlpha then pyLowerChar c else pyUpperChar c) else c) ::
      pyTitleAux (pyIsAlpha c) rest

/-- Python str.title over a string. -/
def pyTitleStr (s : String) : String :=
  String.mk (pyTitleAux false s.data)

/-- Python slice s[:n]. -/
def pyTakeStr (n : Nat) (s : String) : String :=
  String.mk (s.data.take n)

/-- Python membership test for a single character: c in s. -/
def pyInChar (c : Char) (s : String) : Bool :=
  s.data.contains c

/-- Splitting helper for Python str.split(sep, 1) at the first occurrence of
a one-character separator (the source destructures the result into exactly
two parts, which exist because it is guarded by an occurrence test). -/
def pySplitOnceAux (sep : Char) : List Char → List Char × List Char
  | [] => ([], [])
  | c :: rest =>
    if c = sep then ([], rest)
    else
      let p := pySplitOnceAux sep rest
      (c :: p.1, p.2)

/-- Python repo_name.split(sep, 1) destructured into the two parts. -/
def pySplitOnce (sep : Char) (s : String) : String × String :=
  let p := pySplitOnceAux sep s.data
  (String.mk p.1, String.mk p.2)

/-- Python substring containment sep in s, for a non-empty separator. -/
def pyContainsSub (sep : List Char) : List Char → Bool
  | [] => sep.isPrefixOf []
  | c :: rest => sep.isPrefixOf (c :: rest) || pyContainsSub sep rest

/-- Python substring containment over strings. -/
def pyInStr (sep s : String) : Bool :=
  pyContainsSub sep.data s.data

/-- Fuel-bounded worker for Python str.split(sep) with a non-empty substring
separator; the fuel is the length of the input plus one, and every step
consumes at least one character, so the fuel never runs out. -/
def pySplitSubAux (sep : List Char) : Nat → List Char → List Char → List (List Char)
  | 0, s, acc => [acc.reverse ++ s]
  | fuel + 1, s, acc =>
    if sep.isPrefixOf s then
      acc.reverse :: pySplitSubAux sep fuel (s.drop sep.length) []
    else
      match s with
      | [] => [acc.reverse]
      | c :: rest => pySplitSubAux sep fuel rest (c :: acc)

/-- Python str.split(sep) for a non-empty substring separator. -/
def pySplitSub (sep s : String) : List String :=
  (pySplitSubAux sep.data (s.data.length + 1) s.data []).map String.mk

/-- List indexing for the result of a Python split; the source only indexes
position 1 after checking that the separator occurs, so the default is never
reached on the guarded path. -/
def pyIndex (l : List String) (i : Nat) : String :=
  l.getD i ""

/-- Python truthiness of a string: non-empty. -/
def pyTruthyStr (s : String) : Bool :=
  decide (s ≠ "")

/-- Python falsiness of an optional string variable (None or the empty
string), as tested by the not commit_sha guards in github_utils.py. -/
def pyFalsyOptStr : Option String → Bool
  | none => true
  | some s => decide (s = "")

/-- Python expression commit_sha or default over an optional string. -/
def pyOrStr (a : Option String) (b : String) : String :=
  match a with
  | none => b
  | some s => if s = "" then b else s

/-! ## Repository-name derivation (app.py lines 48-49, main.py lines 44-46) -/

/-- Embedding of the round-1 repository-name derivation:
f"iitm-{task}-{nonce}-{timestamp}".replace(" ", "-").lower(). -/
def deriveRepoName (task nonce : String) (timestamp : Nat) : String :=
  pyLowerStr (pyReplaceCharStr ' ' '-'
    ("iitm-" ++ task ++ "-" ++ nonce ++ "-" ++ toString timestamp))

/-! ## Callback delivery (app.py lines 139-165, main.py lines 153-179) -/

/-- Retry schedule constant delays = [1, 2, 4, 8, 16, 32] of
send_evaluation_callback_with_retry. -/
def callbackDelays : List Nat :=
  [1, 2, 4, 8, 16, 32]

/-- One pass of the retry loop. The oracle respond gives attempt i either a
raised network exception (none) or the HTTP status of the response (some
code). Returns (success, number of attempts made, list of sleeps performed
between attempts); the loop returns True immediately on a 200 response, and
sleeps the delay of the current attempt only when the attempt index is
strictly below len(delays) - 1. -/
def callbackGo (respond : Nat → Option Nat) (attempt : Nat) : List Nat → Bool × Nat × List Nat
  | [] => (false, 0, [])
  | delay :: rest =>
    if respond attempt = some 200 then (true, 1, [])
    else
      let r := callbackGo respond (attempt + 1) rest
      (r.1, r.2.1 + 1,
        if attempt < callbackDelays.length - 1 then delay :: r.2.2 else r.2.2)

/-- Embedding of send_evaluation_callback_with_retry: runs the retry loop
over the fixed schedule starting at attempt 0 and returns False after the
last scheduled attempt fails. -/
def send_evaluation_callback_with_retry (respond : Nat → Option Nat) : Bool × Nat × List Nat :=
  callbackGo respond 0 callbackDelays

/-! ## Template text synthesized by the source (github_utils.py, llm_utils.py).
The spec excludes the wording of these templates from its scope; they are
embedded verbatim so the publisher and fallback logic operate on the real
values. -/

def create_mit_license : String :=
  "MIT License\n" ++
  "\n" ++
  "Copyright (c) 2024 IITM Task Handler\n" ++
  "\n" ++
  "Permission is hereby granted, free of charge, to any person obtaining a copy\n" ++
  "of this software and associated documentation files (the \"Software\"), to deal\n" ++
  "in the Software without restriction, including without limitation the rights\n" ++
  "to use, copy, modify, merge, publish, distribute, sublicense, and/or sell\n" ++
  "copies of the Software, and to permit persons to whom the Software is\n" ++
  "furnished to do so, subject to the following conditions:\n" ++
  "\n" ++
  "The above copyright notice and this permission notice shall be included in all\n" ++
  "copies or substantial portions of the Software.\n" ++
  "\n" ++
  "THE SOFTWARE IS PROVIDED \"AS IS\", WITHOUT WARRANTY OF ANY KIND, EXPRESS OR\n" ++
  "IMPLIED, INCLUDING BUT NOT LIMITED TO THE WARRANTIES OF MERCHANTABILITY,\n" ++
  "FITNESS FOR A PARTICULAR PURPOSE AND NONINFRINGEMENT. IN NO EVENT SHALL THE\n" ++
  "AUTHORS OR COPYRIGHT HOLDERS BE LIABLE FOR ANY CLAIM, DAMAGES OR OTHER\n" ++
  "LIABILITY, WHETHER IN AN ACTION OF CONTRACT, TORT OR OTHERWISE, ARISING FROM,\n" ++
  "OUT OF OR IN CONNECTION WITH THE SOFTWARE OR THE USE OR OTHER DEALINGS IN THE\n" ++
  "SOFTWARE."

/-- Embedding of github_utils.create_comprehensive_readme. -/
def create_comprehensive_readme (brief task email repoName : String) : String :=
  "# " ++
  (pyTitleStr (pyReplaceCharStr (Char.ofNat 45) (Char.ofNat 32) task)) ++
  "\n" ++
  "\n" ++
  "## Overview\n" ++
  brief ++
  "\n" ++
  "\n" ++
  "## Project Details\n" ++
  "- **Task**: " ++
  task ++
  "\n" ++
  "- **Generated for**: " ++
  email ++
  "\n" ++
  "- **Repository**: " ++
  repoName ++
  "\n" ++
  "- **Generated by**: IITM Task Handler API\n" ++
  "\n" ++
  "## Setup Instructions\n" ++
  "\n" ++
  "### Prerequisites\n" ++
  "- A modern web browser\n" ++
  "- Optional: Local web server (for development)\n" ++
  "\n" ++
  "### Installation\n" ++
  "1. Clone this repository:\n" ++
  "   \x60\x60\x60bash\n" ++
  "   git clone https://github.com/" ++
  repoName ++
  ".git\n" ++
  "   cd " ++
  repoName ++
  "\n" ++
  "   \x60\x60\x60\n" ++
  "\n" ++
  "2. Open the application:\n" ++
  "   - **Option 1**: Open \x60index.html\x60 directly in your browser\n" ++
  "   - **Option 2**: Serve using a local web server:\n" ++
  "     \x60\x60\x60bash\n" ++
  "     # Using Python\n" ++
  "     python -m http.server 8000\n" ++
  "     \n" ++
  "     # Using Node.js\n" ++
  "     npx serve .\n" ++
  "     \n" ++
  "     # Using PHP\n" ++
  "     php -S localhost:8000\n" ++
  "     \x60\x60\x60\n" ++
  "\n" ++
  "3. Navigate to \x60http://localhost:8000\x60 (if using a server) or open the HTML file directly\n" ++
  "\n" ++
  "## Usage\n" ++
  "\n" ++
  "### Basic Usage\n" ++
  "1. Open the application in your web browser\n" ++
  "2. Follow the on-screen instructions\n" ++
  "3. Interact with the interface as designed\n" ++
  "\n" ++
  "### URL Parameters\n" ++
  "The application supports URL parameters for enhanced functionality:\n" ++
  "- \x60?url=<image_url>\x60 - Pass an image URL for processing\n" ++
  "- \x60?data=<json_data>\x60 - Pass JSON data for processing\n" ++
  "\n" ++
  "### Features\n" ++
  "- Responsive design that works on desktop and mobile\n" ++
  "- Modern, clean user interface\n" ++
  "- Error handling and user feedback\n" ++
  "- Cross-browser compatibility\n" ++
  "\n" ++
  "## Code Structure\n" ++
  "\n" ++
  "### Files\n" ++
  "- \x60index.html\x60 - Main HTML structure\n" ++
  "- \x60style.css\x60 - CSS styling and responsive design\n" ++
  "- \x60script.js\x60 - JavaScript functionality and interactions\n" ++
  "- \x60README.md\x60 - This documentation file\n" ++
  "- \x60LICENSE\x60 - MIT License\n" ++
  "\n" ++
  "### Key Components\n" ++
  "- **HTML**: Semantic structure with accessibility in mind\n" ++
  "- **CSS**: Modern styling with CSS Grid and Flexbox\n" ++
  "- **JavaScript**: Vanilla JS with modern ES6+ features\n" ++
  "\n" ++
  "## Development\n" ++
  "\n" ++
  "### Local Development\n" ++
  "1. Make changes to the source files\n" ++
  "2. Refresh your browser to see changes\n" ++
  "3. Test across different browsers and devices\n" ++
  "\n" ++
  "### Customization\n" ++
  "- Modify \x60style.css\x60 for visual changes\n" ++
  "- Update \x60script.js\x60 for functionality changes\n" ++
  "- Edit \x60index.html\x60 for structural changes\n" ++
  "\n" ++
  "## Browser Support\n" ++
  "- Chrome 60+\n" ++
  "- Firefox 55+\n" ++
  "- Safari 12+\n" ++
  "- Edge 79+\n" ++
  "\n" ++
  "## Troubleshooting\n" ++
  "\n" ++
  "### Common Issues\n" ++
  "1. **Page not loading**: Check if all files are present\n" ++
  "2. **Styling issues**: Ensure CSS file is linked correctly\n" ++
  "3. **JavaScript errors**: Check browser console for errors\n" ++
  "\n" ++
  "### Getting Help\n" ++
  "- Check the browser console for error messages\n" ++
  "- Ensure all files are in the same directory\n" ++
  "- Verify file permissions\n" ++
  "\n" ++
  "## License\n" ++
  "This project is licensed under the MIT License - see the [LICENSE](LICENSE) file for details.\n" ++
  "\n" ++
  "## Contributing\n" ++
  "This is an automatically generated project. For modifications, please contact the IITM Task Handler.\n" ++
  "\n" ++
  "## Generated by\n" ++
  "IITM Task Handler API - Automated code generation and repository management system.\n" ++
  "\n" ++
  "---\n" ++
  "*This README was automatically generated as part of the IITM task submission process.*\n"

/-- Embedding of llm_utils.create_default_html. -/
def create_default_html (brief : String) : String :=
  "<!DOCTYPE html>\n" ++
  "<html lang=\"en\">\n" ++
  "<head>\n" ++
  "    <meta charset=\"UTF-8\">\n" ++
  "    <meta name=\"viewport\" content=\"width=device-width, initial-scale=1.0\">\n" ++
  "    <title>IITM Task - " ++
  (pyTakeStr 50 brief) ++
  "</title>\n" ++
  "    <link rel=\"stylesheet\" href=\"style.css\">\n" ++
  "</head>\n" ++
  "<body>\n" ++
  "    <div class=\"container\">\n" ++
  "        <header>\n" ++
  "            <h1>IITM Task Application</h1>\n" ++
  "            <p>" ++
  brief ++
  "</p>\n" ++
  "        </header>\n" ++
  "        <main>\n" ++
  "            <div class=\"content\">\n" ++
  "                <h2>Welcome to the Application</h2>\n" ++
  "                <p>This is a generated application based on your task requirements.</p>\n" ++
  "                <button id=\"actionBtn\" class=\"btn\">Click Me</button>\n" ++
  "                <div id=\"result\" class=\"result\"></div>\n" ++
  "            </div>\n" ++
  "        </main>\n" ++
  "        <footer>\n" ++
  "            <p>&copy; 2024 IITM Task Handler</p>\n" ++
  "        </footer>\n" ++
  "    </div>\n" ++
  "    <script src=\"script.js\"></script>\n" ++
  "</body>\n" ++
  "</html>"

/-- Embedding of llm_utils.create_default_css. -/
def create_default_css : String :=
  "* \x7b\n" ++
  "    margin: 0;\n" ++
  "    padding: 0;\n" ++
  "    box-sizing: border-box;\n" ++
  "\x7d\n" ++
  "\n" ++
  "body \x7b\n" ++
  "    font-family: \x27Segoe UI\x27, Tahoma, Geneva, Verdana, sans-serif;\n" ++
  "    line-height: 1.6;\n" ++
  "    color: #333;\n" ++
  "    background: linear-gradient(135deg, #667eea 0%, #764ba2 100%);\n" ++
  "    min-height: 100vh;\n" ++
  "\x7d\n" ++
  "\n" ++
  ".container \x7b\n" ++
  "    max-width: 800px;\n" ++
  "    margin: 0 auto;\n" ++
  "    padding: 20px;\n" ++
  "    background: white;\n" ++
  "    margin-top: 20px;\n" ++
  "    border-radius: 10px;\n" ++
  "    box-shadow: 0 10px 30px rgba(0,0,0,0.1);\n" ++
  "\x7d\n" ++
  "\n" ++
  "header \x7b\n" ++
  "    text-align: center;\n" ++
  "    margin-bottom: 30px;\n" ++
  "    padding-bottom: 20px;\n" ++
  "    border-bottom: 2px solid #eee;\n" ++
  "\x7d\n" ++
  "\n" ++
  "header h1 \x7b\n" ++
  "    color: #2c3e50;\n" ++
  "    margin-bottom: 10px;\n" ++
  "\x7d\n" ++
  "\n" ++
  "header p \x7b\n" ++
  "    color: #7f8c8d;\n" ++
  "    font-size: 1.1em;\n" ++
  "\x7d\n" ++
  "\n" ++
  ".content \x7b\n" ++
  "    text-align: center;\n" ++
  "    padding: 20px 0;\n" ++
  "\x7d\n" ++
  "\n" ++
  ".btn \x7b\n" ++
  "    background: #3498db;\n" ++
  "    color: white;\n" ++
  "    padding: 12px 24px;\n" ++
  "    border: none;\n" ++
  "    border-radius: 5px;\n" ++
  "    cursor: pointer;\n" ++
  "    font-size: 16px;\n" ++
  "    transition: background 0.3s;\n" ++
  "    margin: 20px 0;\n" ++
  "\x7d\n" ++
  "\n" ++
  ".btn:hover \x7b\n" ++
  "    background: #2980b9;\n" ++
  "\x7d\n" ++
  "\n" ++
  ".result \x7b\n" ++
  "    margin-top: 20px;\n" ++
  "    padding: 15px;\n" ++
  "    background: #f8f9fa;\n" ++
  "    border-radius: 5px;\n" ++
  "    min-height: 50px;\n" ++
  "    display: flex;\n" ++
  "    align-items: center;\n" ++
  "    justify-content: center;\n" ++
  "\x7d\n" ++
  "\n" ++
  "footer \x7b\n" ++
  "    text-align: center;\n" ++
  "    margin-top: 30px;\n" ++
  "    padding-top: 20px;\n" ++
  "    border-top: 1px solid #eee;\n" ++
  "    color: #7f8c8d;\n" ++
  "\x7d\n" ++
  "\n" ++
  "@media (max-width: 600px) \x7b\n" ++
  "    .container \x7b\n" ++
  "        margin: 10px;\n" ++
  "        padding: 15px;\n" ++
  "    \x7d\n" ++
  "\x7d"

/-- Embedding of llm_utils.create_default_js. -/
def create_default_js : String :=
  "document.addEventListener(\x27DOMContentLoaded\x27, function() \x7b\n" ++
  "    const actionBtn = document.getElementById(\x27actionBtn\x27);\n" ++
  "    const result = document.getElementById(\x27result\x27);\n" ++
  "    \n" ++
  "    actionBtn.addEventListener(\x27click\x27, function() \x7b\n" ++
  "        result.innerHTML = \x27<p>Button clicked! Application is working.</p>\x27;\n" ++
  "        result.style.background = \x27#d4edda\x27;\n" ++
  "        result.style.color = \x27#155724\x27;\n" ++
  "        result.style.border = \x271px solid #c3e6cb\x27;\n" ++
  "    \x7d);\n" ++
  "    \n" ++
  "    // Add some interactive features\n" ++
  "    console.log(\x27IITM Task Application loaded successfully\x27);\n" ++
  "    \n" ++
  "    // Example of handling URL parameters\n" ++
  "    const urlParams = new URLSearchParams(window.location.search);\n" ++
  "    const urlParam = urlParams.get(\x27url\x27);\n" ++
  "    if (urlParam) \x7b\n" ++
  "        result.innerHTML = \x60<p>URL parameter detected: $\x7burlParam\x7d</p>\x60;\n" ++
  "    \x7d\n" ++
  "\x7d);"

/-- Embedding of llm_utils.create_default_readme. -/
def create_default_readme (brief : String) : String :=
  "# IITM Task Application\n" ++
  "\n" ++
  "## Overview\n" ++
  brief ++
  "\n" ++
  "\n" ++
  "## Setup\n" ++
  "1. Clone this repository\n" ++
  "2. Open \x60index.html\x60 in a web browser\n" ++
  "3. Or serve it using a local web server\n" ++
  "\n" ++
  "## Usage\n" ++
  "- Open the application in your browser\n" ++
  "- Interact with the interface as designed\n" ++
  "- Check browser console for any additional functionality\n" ++
  "\n" ++
  "## Files\n" ++
  "- \x60index.html\x60 - Main HTML file\n" ++
  "- \x60style.css\x60 - Styling\n" ++
  "- \x60script.js\x60 - JavaScript functionality\n" ++
  "\n" ++
  "## License\n" ++
  "MIT License - see LICENSE file for details\n" ++
  "\n" ++
  "## Generated by\n" ++
  "IITM Task Handler API\n"

/-! ## Core model types -/

/-- Outcome of one external HTTP request: either a response with a status
code and the relevant part of its body, or a raised network-level exception
(connection error, timeout). -/
inductive ApiResult where
  | status (code : Nat) (body : String)
  | exception (msg : String)
deriving DecidableEq

/-- Python exceptions that the handlers raise or propagate. -/
inductive PyExc where
  | http (status : Nat) (detail : String)
  | typeError (msg : String)
  | other (msg : String)
deriving DecidableEq

/-- JSON scalar values appearing in the payloads built by the handlers. -/
inductive JVal where
  | s (v : String)
  | n (v : Int)
  | b (v : Bool)
deriving DecidableEq

/-- One external call performed by a handler, recorded in order. A callback
entry carries the JSON payload posted to the evaluation URL (one entry per
delivery attempt). -/
inductive ExtCall where
  | genCode
  | modCode
  | createRepo
  | filePut (fname : String)
  | fileGet (fname : String)
  | pages
  | callback (payload : List (String × JVal))
deriving DecidableEq

/-- HTTP response of an endpoint: a 200 JSON body, or an error status with
a detail message (FastAPI renders a raised HTTPException this way). -/
inductive HttpOut where
  | ok (body : List (String × JVal))
  | err (status : Nat) (detail : String)
deriving DecidableEq

/-- An inbound request after JSON extraction with the .get defaults used by
the handlers: absent string fields become "", an absent secret is None, and
round is the JSON number of the round field (app.py defaults it to 1). -/
structure Req where
  secret : Option String
  email : String
  task : String
  round : Int
  nonce : String
  brief : String
  checks : List String
  evaluation_url : String
  attachments : List (String × String)
  repo_name : String
  modification : String

/-- The environment of one request: the configured secret, the clock, and
one oracle per external interaction (LLM call, repository creation, per-file
content reads/writes with the sha fields of their JSON responses, pages
activation, and the per-attempt callback responses, where none is a raised
network exception and some code is an HTTP status). -/
structure World where
  expectedSecret : Option String
  timestamp : Nat
  llmApi : ApiResult
  jsonParse : String → Option (List (String × String))
  createApi : ApiResult
  createHtmlUrl : String
  filePutApi : String → ApiResult
  filePutSha : String → String
  fileGetApi : String → ApiResult
  fileGetSha : String → String
  pagesApi : ApiResult
  respond : Nat → Option Nat

/-- Rendering str(e) of a caught exception: starlette HTTPException prints
as "status: detail", while TypeError and plain Exception print their
message. -/
def excStr : PyExc → String
  | .http status detail => toString status ++ ": " ++ detail
  | .typeError msg => msg
  | .other msg => msg

/-- The top-level except Exception clause of each endpoint: any exception
escaping the body (including an HTTPException raised inside the try block)
is re-raised as HTTPException(500, prefix + str(e)). -/
def wrapHandler (pre : String) :
    Except PyExc (List (String × JVal)) × List ExtCall → HttpOut × List ExtCall
  | (.ok body, tr) => (.ok body, tr)
  | (.error e, tr) => (.err 500 (pre ++ excStr e), tr)

/-! ## llm_utils.py -/

/-- The fallback FileSet of generate_code, written out twice in the source
(JSONDecodeError branch and the outer except branch) with identical
contents. -/
def generateFallback (brief : String) : List (String × String) :=
  [("index.html", create_default_html brief),
   ("style.css", create_default_css),
   ("script.js", create_default_js),
   ("README.md", create_default_readme brief)]

/-- Embedding of llm_utils.generate_code(brief, attachments): the api oracle
is the upstream chat-completion call, its body being the message content
extracted from the response; jsonParse models json.loads on that content
(none is a JSONDecodeError). A non-200 status raises inside the try block
and is caught by the same except clause as a network exception, so every
failure path returns the fallback FileSet. -/
def generate_code (api : ApiResult) (jsonParse : String → Option (List (String × String)))
    (brief : String) (attachments : List (String × String)) : List (String × String) :=
  match api with
  | .status code content =>
    if code = 200 then
      match jsonParse content with
      | some codeFiles => codeFiles
      | none => generateFallback brief
    else generateFallback brief
  | .exception _ => generateFallback brief

/-- Embedding of llm_utils.modify_code(modification_request, repo_name):
every failure path returns a FileSet holding only the sentinel error
entry. -/
def modify_code (api : ApiResult) (jsonParse : String → Option (List (String × String)))
    (modificationRequest repoName : String) : List (String × String) :=
  match api with
  | .status code content =>
    if code = 200 then
      match jsonParse content with
      | some files => files
      | none => [("error", "Failed to parse modification response")]
    else [("error", "Modification failed: API request failed with status " ++ toString code)]
  | .exception m => [("error", "Modification failed: " ++ m)]

/-! ## github_utils.py -/

/-- Embedding of github_utils.add_file_to_repo: a PUT of one file; on a 200
or 201 response it returns the commit sha field of the response JSON
(oracle putSha), on any other status it logs and returns "unknown", and a
network exception propagates. -/
def add_file_to_repo (putApi : String → ApiResult) (putSha : String → String)
    (repoName fname : String) : Except PyExc String :=
  match putApi fname with
  | .exception m => .error (.other m)
  | .status code _ => .ok (if code = 200 ∨ code = 201 then putSha fname else "unknown")

/-- Python dict insertion d[key] = val over an association list with unique
keys: replaces in place, else appends (the {**code_files, "LICENSE": ...,
"README.md": ...} merge in add_files_to_repo). -/
def dictUpsert : List (String × String) → String → String → List (String × String)
  | [], key, val => [(key, val)]
  | (k, v) :: rest, key, val =>
    if k = key then (key, val) :: rest else (k, v) :: dictUpsert rest key val

/-- The file loop of add_files_to_repo: writes each file in order,
remembering the first returned sha that is truthy while commit_sha is still
falsy (if sha and not commit_sha), and propagating a raised exception. -/
def addFilesLoop (putApi : String → ApiResult) (putSha : String → String) (repoName : String) :
    List (String × String) → Option String → Except PyExc (Option String) × List ExtCall
  | [], acc => (.ok acc, [])
  | (fname, _) :: rest, acc =>
    match add_file_to_repo putApi putSha repoName fname with
    | .error e => (.error e, [.filePut fname])
    | .ok sha =>
      let acc2 := if pyTruthyStr sha && pyFalsyOptStr acc then some sha else acc
      let r := addFilesLoop putApi putSha repoName rest acc2
      (r.1, .filePut fname :: r.2)

/-- Embedding of github_utils.add_files_to_repo: merges the generated files
with the synthesized LICENSE and README.md, writes them in order, and
returns commit_sha or "unknown". -/
def add_files_to_repo (putApi : String → ApiResult) (putSha : String → String)
    (repoName : String) (codeFiles : List (String × String)) (brief task email : String) :
    Except PyExc String × List ExtCall :=
  let filesToAdd := dictUpsert (dictUpsert codeFiles "LICENSE" create_mit_license)
    "README.md" (create_comprehensive_readme brief task email repoName)
  match addFilesLoop putApi putSha repoName filesToAdd none with
  | (.ok acc, tr) => (.ok (pyOrStr acc "unknown"), tr)
  | (.error e, tr) => (.error e, tr)

/-- Embedding of github_utils.create_repo: POST /user/repos; on 201 the
html_url field of the response (oracle createHtmlUrl) becomes the repo URL
and the files are added; any other status raises Exception("Failed to
create repository: " + body); a network exception propagates. -/
def create_repo (w : World) (repoName : String) (codeFiles : List (String × String))
    (brief task email : String) : Except PyExc (String × String) × List ExtCall :=
  match w.createApi with
  | .exception m => (.error (.other m), [.createRepo])
  | .status code body =>
    if code = 201 then
      match add_files_to_repo w.filePutApi w.filePutSha repoName codeFiles brief task email with
      | (.error e, tr) => (.error e, .createRepo :: tr)
      | (.ok sha, tr) => (.ok (w.createHtmlUrl, sha), .createRepo :: tr)
    else (.error (.other ("Failed to create repository: " ++ body)), [.createRepo])

/-- The update loop of github_utils.update_repo: skips the sentinel "error"
entry, GETs the current file (reading its sha for the request), and on a 200
PUTs the new content; on a 200/201 PUT response the first one (while
commit_sha is falsy) supplies the returned commit sha; a non-200 GET or a
non-2xx PUT is logged and skipped; network exceptions propagate. -/
def updateLoop (w : World) (repoName : String) :
    List (String × String) → Option String → Except PyExc (Option String) × List ExtCall
  | [], acc => (.ok acc, [])
  | (fname, _) :: rest, acc =>
    if fname = "error" then updateLoop w repoName rest acc
    else
      match w.fileGetApi fname with
      | .exception m => (.error (.other m), [.fileGet fname])
      | .status gcode _ =>
        if gcode = 200 then
          match w.filePutApi fname with
          | .exception m => (.error (.other m), [.fileGet fname, .filePut fname])
          | .status pcode _ =>
            let acc2 :=
              if (pcode = 200 ∨ pcode = 201) then
                if pyFalsyOptStr acc then some (w.filePutSha fname) else acc
              else acc
            let r := updateLoop w repoName rest acc2
            (r.1, .fileGet fname :: .filePut fname :: r.2)
        else
          let r := updateLoop w repoName rest acc
          (r.1, .fileGet fname :: r.2)

/-- Embedding of github_utils.update_repo: runs the update loop and returns
commit_sha or "unknown". -/
def update_repo (w : World) (repoName : String) (updatedFiles : List (String × String)) :
    Except PyExc String × List ExtCall :=
  match updateLoop w repoName updatedFiles none with
  | (.ok acc, tr) => (.ok (pyOrStr acc "unknown"), tr)
  | (.error e, tr) => (.error e, tr)

/-- The syntactic pages-URL derivation shared by github_utils (lines
170-175) and both round-2 handlers: owner/repo becomes
https://owner.github.io/repo/, a name without a slash becomes
https://name.github.io/. -/
def pagesUrlFromRepoName (repoName : String) : String :=
  if pyInChar (Char.ofNat 47) repoName then
    let p := pySplitOnce (Char.ofNat 47) repoName
    "https://" ++ p.1 ++ ".github.io/" ++ p.2 ++ "/"
  else "https://" ++ repoName ++ ".github.io/"

/-- Embedding of github_utils.enable_github_pages: POST the pages
configuration; 200/201 yields the derived pages URL, any other status logs
a warning and returns the bare repository URL; the call is not wrapped in a
try block, so a network exception propagates to the caller. -/
def enable_github_pages (api : ApiResult) (repoName : String) : Except PyExc String :=
  match api with
  | .exception m => .error (.other m)
  | .status code _ =>
    if code = 200 ∨ code = 201 then .ok (pagesUrlFromRepoName repoName)
    else .ok ("https://github.com/" ++ repoName)

/-! ## The handlers (app.py and main.py) -/

/-- The evaluation_response dict built by both handlers, in source field
order. -/
def evaluationPayload (email task : String) (round : Int) (nonce repoUrl commitSha pagesUrl : String) :
    List (String × JVal) :=
  [("email", .s email), ("task", .s task), ("round", .n round), ("nonce", .s nonce),
   ("repo_url", .s repoUrl), ("commit_sha", .s commitSha), ("pages_url", .s pagesUrl)]

/-- Trace of the callback deliveries: one callback entry per attempt made by
send_evaluation_callback_with_retry, each posting the same payload. -/
def callbackTrace (w : World) (payload : List (String × JVal)) : List ExtCall :=
  List.replicate (send_evaluation_callback_with_retry w.respond).2.1 (.callback payload)

/-- The username/repo extraction from the created repository URL (app.py
lines 63-67, main.py lines 60-65): the text after "github.com/" when that
substring occurs, otherwise the derived repository name. -/
def fullRepoNameOf (repoUrl fallback : String) : String :=
  if pyInStr "github.com/" repoUrl then pyIndex (pySplitSub "github.com/" repoUrl) 1
  else fallback

/-- The round-1 workflow shared by app.py (round_num == 1 branch) and
main.py /iitm-task: derive the repository name, generate the FileSet,
create and populate the repository, split the username out of the returned
html_url, enable pages, and deliver the callback when an evaluation URL was
supplied. -/
def round1Flow (w : World) (req : Req) : Except PyExc (List (String × JVal)) × List ExtCall :=
  let repoName := deriveRepoName req.task req.nonce w.timestamp
  let codeFiles := generate_code w.llmApi w.jsonParse req.brief req.attachments
  match create_repo w repoName codeFiles req.brief req.task req.email with
  | (.error e, tr) => (.error e, .genCode :: tr)
  | (.ok (repoUrl, commitSha), tr) =>
    match enable_github_pages w.pagesApi (fullRepoNameOf repoUrl repoName) with
    | .error e => (.error e, .genCode :: tr ++ [.pages])
    | .ok pagesUrl =>
      let payload := evaluationPayload req.email req.task 1 req.nonce repoUrl commitSha pagesUrl
      let cb := if pyTruthyStr req.evaluation_url then callbackTrace w payload else []
      (.ok [("status", .s "success"), ("message", .s "Task completed successfully"),
            ("repo_url", .s repoUrl), ("pages_url", .s pagesUrl),
            ("evaluation_sent", .b (pyTruthyStr req.evaluation_url))],
        .genCode :: tr ++ [.pages] ++ cb)

/-- The round-2 workflow shared by app.py (round_num == 2 branch, where the
instruction is the brief field) and main.py /iitm-round2 (where it is the
modification field): modify the code, update the repository, derive the
pages URL syntactically from repo_name without calling the pages activator,
and deliver the callback when an evaluation URL was supplied. -/
def round2Flow (w : World) (req : Req) (instruction : String) :
    Except PyExc (List (String × JVal)) × List ExtCall :=
  let updatedFiles := modify_code w.llmApi w.jsonParse instruction req.repo_name
  match update_repo w req.repo_name updatedFiles with
  | (.error e, tr) => (.error e, .modCode :: tr)
  | (.ok commitSha, tr) =>
    let pagesUrl := pagesUrlFromRepoName req.repo_name
    let payload := evaluationPayload req.email req.task 2 req.nonce
      ("https://github.com/" ++ req.repo_name) commitSha pagesUrl
    let cb := if pyTruthyStr req.evaluation_url then callbackTrace w payload else []
    (.ok [("status", .s "success"), ("round", .n 2),
          ("message", .s "Code modified and updated in repo"), ("commit_sha", .s commitSha)],
      .modCode :: tr ++ cb)

/-- llm_utils.generate_code is declared with parameters
(brief, attachments=None): at most 2 positional arguments. -/
def generateCodeMaxArgs : Nat := 2

/-- app.py line 52 calls generate_code(brief, attachments, checks): 3
positional arguments. -/
def appGenerateCallArgs : Nat := 3

/-- llm_utils.modify_code is declared with parameters
(modification_request, repo_name): at most 2 positional arguments. -/
def modifyCodeMaxArgs : Nat := 2

/-- app.py line 101 calls modify_code(brief, repo_name, checks): 3
positional arguments. -/
def appModifyCallArgs : Nat := 3

/-- The body of the app.py /api-endpoint handler (inside its try block).
Calling a Python function with more positional arguments than its
parameters raises TypeError at the call site, before the callee body runs,
so the two 3-argument calls are modelled by that arity comparison. -/
def app_body (w : World) (req : Req) : Except PyExc (List (String × JVal)) × List ExtCall :=
  if req.secret ≠ w.expectedSecret then (.error (.http 401 "Invalid secret"), [])
  else if req.round = 1 then
    if appGenerateCallArgs > generateCodeMaxArgs then
      (.error (.typeError "generate_code() takes from 1 to 2 positional arguments but 3 were given"), [])
    else round1Flow w req
  else if req.round = 2 then
    if pyTruthyStr req.repo_name = false then
      (.error (.http 400 "repo_name required for round 2"), [])
    else if appModifyCallArgs > modifyCodeMaxArgs then
      (.error (.typeError "modify_code() takes 2 positional arguments but 3 were given"), [])
    else round2Flow w req req.brief
  else (.error (.http 400 "Invalid round number. Must be 1 or 2"), [])

/-- Embedding of the app.py POST /api-endpoint handler. -/
def app_handle_iitm_task (w : World) (req : Req) : HttpOut × List ExtCall :=
  wrapHandler "Task processing failed: " (app_body w req)

/-- The body of the main.py /iitm-task handler: secret gate, then the
round-1 flow (this endpoint has no round dispatch and calls generate_code
with two arguments). -/
def main_task_body (w : World) (req : Req) : Except PyExc (List (String × JVal)) × List ExtCall :=
  if req.secret ≠ w.expectedSecret then (.error (.http 401 "Invalid secret"), [])
  else round1Flow w req

/-- Embedding of the main.py POST /iitm-task handler. -/
def main_handle_iitm_task (w : World) (req : Req) : HttpOut × List ExtCall :=
  wrapHandler "Task processing failed: " (main_task_body w req)

/-- The body of the main.py /iitm-round2 handler: secret gate, then the
round-2 flow with the modification field; this endpoint performs no
repo_name validation. -/
def main_round2_body (w : World) (req : Req) : Except PyExc (List (String × JVal)) × List ExtCall :=
  if req.secret ≠ w.expectedSecret then (.error (.http 401 "Invalid secret"), [])
  else round2Flow w req req.modification

/-- Embedding of the main.py POST /iitm-round2 handler. -/
def main_handle_round2 (w : World) (req : Req) : HttpOut × List ExtCall :=
  wrapHandler "Round 2 processing failed: " (main_round2_body w req)

/-! ## Specification-side definition and concrete scenarios -/

/-- Stated from the specification words, for comparison with the embedded
publisher (C2): the commit identifier returned by the first file write in
the batch that returns success (a 200 or 201 response). -/
def firstSuccessSha (putApi : String → ApiResult) (putSha : String → String) :
    List (String × String) → Option String
  | [] => none
  | (fname, _) :: rest =>
    match putApi fname with
    | .status code _ =>
      if code = 200 ∨ code = 201 then some (putSha fname)
      else firstSuccessSha putApi putSha rest
    | .exception _ => firstSuccessSha putApi putSha rest

/-- The merged batch actually written by add_files_to_repo for a given
FileSet and metadata. -/
def publishBatch (codeFiles : List (String × String)) (brief task email repoName : String) :
    List (String × String) :=
  dictUpsert (dictUpsert codeFiles "LICENSE" create_mit_license)
    "README.md" (create_comprehensive_readme brief task email repoName)

/-- Write oracle for the C2 scenario: the write of b.html succeeds with a
201, every other write fails with a 422. -/
def cexPutApi : String → ApiResult := fun fname =>
  if fname = "b.html" then .status 201 "created" else .status 422 "Unprocessable"

/-- Commit-sha field of the successful write responses in the C2
scenario. -/
def cexPutSha : String → String := fun _ => "9c9f2c4e"

/-- A two-file FileSet whose first write fails and whose second write
succeeds. -/
def cexCodeFiles : List (String × String) :=
  [("a.html", "<html>a</html>"), ("b.html", "<html>b</html>")]

/-- A request with every field populated and a matching secret, used to
evaluate the handlers on concrete inputs. Field order: secret, email, task,
round, nonce, brief, checks, evaluation_url, attachments, repo_name,
modification. -/
def okReq1 : Req :=
  ⟨some "test_secret_123", "student@example.com", "captcha-solver", 1, "ab12",
   "Create a captcha solver", ["Repo has MIT license"], "https://example.com/notify",
   [("sample.png", "data:image/png;base64,xyz")], "", ""⟩

/-- A round-2 request with a matching secret and a slash-qualified
repo_name. -/
def okReq2 : Req :=
  ⟨some "test_secret_123", "student@example.com", "captcha-solver", 2, "ab12",
   "Add dark mode", [], "https://example.com/notify", [], "testuser/iitm-demo",
   "Add dark mode"⟩

/-- The round-1 request with a wrong secret (the security test of
test_api.py posts secret "invalid_secret"). -/
def badSecretReq : Req :=
  ⟨some "invalid_secret", "student@example.com", "security-test", 1, "security123",
   "This should fail due to invalid secret", [], "https://example.com/notify", [], "", ""⟩

/-- A round-3 request with a matching secret. -/
def round3Req : Req :=
  ⟨some "test_secret_123", "student@example.com", "captcha-solver", 3, "ab12",
   "brief", [], "", [], "", ""⟩

/-- A round-2 request with a matching secret and no repo_name. -/
def noRepoReq2 : Req :=
  ⟨some "test_secret_123", "student@example.com", "captcha-solver", 2, "ab12",
   "Add dark mode", [], "", [], "", "Add dark mode"⟩

/-- A world in which every external call succeeds. World field order:
expectedSecret, timestamp, llmApi, jsonParse, createApi, createHtmlUrl,
filePutApi, filePutSha, fileGetApi, fileGetSha, pagesApi, respond. -/
def okWorld : World :=
  ⟨some "test_secret_123", 1700000000,
   .status 200 "llm-content", fun _ => some [("index.html", "<html></html>")],
   .status 201 "created", "https://github.com/testuser/iitm-demo",
   fun _ => .status 201 "put-created", fun _ => "sha-put",
   fun _ => .status 200 "get-ok", fun _ => "sha-old",
   .status 201 "pages-ok", fun _ => some 200⟩

/-- The same world except that the pages-activation request raises a
network-level exception instead of completing with a status. -/
def pagesExcWorld : World :=
  ⟨some "test_secret_123", 1700000000,
   .status 200 "llm-content", fun _ => some [("index.html", "<html></html>")],
   .status 201 "created", "https://github.com/testuser/iitm-demo",
   fun _ => .status 201 "put-created", fun _ => "sha-put",
   fun _ => .status 200 "get-ok", fun _ => "sha-old",
   .exception "Cannot connect to host api.github.com", fun _ => some 200⟩

/-! ## Character-level lemmas -/

theorem charOfNat_toNat (m : Nat) (h : m < 55296) : (Char.ofNat m).toNat = m := by
  have hv : m.isValidChar := Or.inl h
  simp [Char.ofNat, hv, Char.toNat, Char.ofNatAux]
  rfl

theorem pyLowerChar_not_upper_range (c : Char) :
    ¬(65 ≤ (pyLowerChar c).toNat ∧ (pyLowerChar c).toNat ≤ 90) := by
  unfold pyLowerChar
  by_cases h : 65 ≤ c.toNat ∧ c.toNat ≤ 90
  · rw [if_pos h]
    have := charOfNat_toNat (c.toNat + 32) (by omega)
    omega
  · rw [if_neg h]
    exact h

theorem pyLowerChar_idem (c : Char) : pyLowerChar (pyLowerChar c) = pyLowerChar c := by
  have h := pyLowerChar_not_upper_range c
  have hdef : pyLowerChar (pyLowerChar c) =
      if 65 ≤ (pyLowerChar c).toNat ∧ (pyLowerChar c).toNat ≤ 90 then
        Char.ofNat ((pyLowerChar c).toNat + 32)
      else pyLowerChar c := rfl
  rw [hdef, if_neg h]

theorem pyLowerChar_ne_space (c : Char) (h : c ≠ ' ') : pyLowerChar c ≠ ' ' := by
  unfold pyLowerChar
  by_cases hc : 65 ≤ c.toNat ∧ c.toNat ≤ 90
  · rw [if_pos hc]
    intro heq
    have h1 := charOfNat_toNat (c.toNat + 32) (by omega)
    rw [heq] at h1
    have h2 : (' ' : Char).toNat = 32 := rfl
    omega
  · rw [if_neg hc]
    exact h

theorem isUpper_false_of_not_range (c : Char) (h : ¬(65 ≤ c.toNat ∧ c.toNat ≤ 90)) :
    c.isUpper = false := by
  simp only [Char.isUpper, Bool.and_eq_false_iff, decide_eq_false_iff_not]
  by_cases h1 : 65 ≤ c.toNat
  · right
    intro hle
    exact h ⟨h1, hle⟩
  · left
    exact fun hge => h1 hge


/-! ## C1: callback retry schedule -/

/-- C1: CallbackDelivery uses the fixed schedule delays = [1, 2, 4, 8, 16,
32] and makes at most six attempts with five waits between them, succeeding
and terminating only on an HTTP 200 response: against a URL that always
returns HTTP 500 it makes exactly 6 attempts, sleeping the scheduled delays
1, 2, 4, 8, 16 between consecutive attempts (the first five entries of the
schedule; no sleep follows the last attempt), and returns the failure
indicator False without raising; against a URL that returns 200 on the 3rd
attempt it makes exactly 3 attempts (sleeping 1 and 2 seconds) and returns
True; and whenever it reports success, some attempt among the six received
a 200. -/
theorem callback_retry_contract :
    callbackDelays = [1, 2, 4, 8, 16, 32] ∧
    (∀ respond : Nat → Option Nat, (∀ i, respond i = some 500) →
      send_evaluation_callback_with_retry respond = (false, 6, [1, 2, 4, 8, 16])) ∧
    [1, 2, 4, 8, 16] = callbackDelays.take 5 ∧
    (∀ respond : Nat → Option Nat,
      respond 0 ≠ some 200 → respond 1 ≠ some 200 → respond 2 = some 200 →
      send_evaluation_callback_with_retry respond = (true, 3, [1, 2])) ∧
    (∀ respond : Nat → Option Nat,
      (send_evaluation_callback_with_retry respond).1 = true →
      ∃ i, i < 6 ∧ respond i = some 200) := by
  refine ⟨rfl, ?_, rfl, ?_, ?_⟩
  · intro respond h
    simp [send_evaluation_callback_with_retry, callbackGo, callbackDelays, h]
  · intro respond h0 h1 h2
    simp [send_evaluation_callback_with_retry, callbackGo, callbackDelays, h0, h1, h2]
  · intro respond h
    by_cases h0 : respond 0 = some 200
    · exact ⟨0, by omega, h0⟩
    by_cases h1 : respond 1 = some 200
    · exact ⟨1, by omega, h1⟩
    by_cases h2 : respond 2 = some 200
    · exact ⟨2, by omega, h2⟩
    by_cases h3 : respond 3 = some 200
    · exact ⟨3, by omega, h3⟩
    by_cases h4 : respond 4 = some 200
    · exact ⟨4, by omega, h4⟩
    by_cases h5 : respond 5 = some 200
    · exact ⟨5, by omega, h5⟩
    exfalso
    simp [send_evaluation_callback_with_retry, callbackGo, callbackDelays,
      h0, h1, h2, h3, h4, h5] at h

/-- Witness for C1 at concrete responders: an always-500 URL and a URL that
returns 200 on the third attempt. -/
theorem callback_retry_contract_witness :
    send_evaluation_callback_with_retry (fun _ => some 500) = (false, 6, [1, 2, 4, 8, 16]) ∧
    send_evaluation_callback_with_retry (fun i => if i = 2 then some 200 else some 500) =
      (true, 3, [1, 2]) := by
  constructor
  · exact callback_retry_contract.2.1 (fun _ => some 500) (fun i => rfl)
  · exact callback_retry_contract.2.2.2.1 (fun i => if i = 2 then some 200 else some 500)
      (by decide) (by decide) (by decide)

/-! ## C9: repository-name derivation -/

/-- C9: the derived round-1 repository name is exactly the string
iitm-{task}-{nonce}-{timestamp} with each space replaced by a hyphen and
then lower-cased, and consequently, for every task and nonce, the derived
name is lower-case (lower-casing it again changes nothing) and contains no
space character. -/
theorem derive_repo_name_properties :
    ∀ (task nonce : String) (ts : Nat),
      deriveRepoName task nonce ts =
        pyLowerStr (pyReplaceCharStr ' ' '-'
          ("iitm-" ++ task ++ "-" ++ nonce ++ "-" ++ toString ts)) ∧
      pyLowerStr (deriveRepoName task nonce ts) = deriveRepoName task nonce ts ∧
      ∀ c ∈ (deriveRepoName task nonce ts).data, c ≠ ' ' ∧ c.isUpper = false := by
  intro task nonce ts
  refine ⟨rfl, ?_, ?_⟩
  · simp only [deriveRepoName, pyLowerStr, pyReplaceCharStr, List.map_map]
    congr 1
    apply List.map_congr_left
    intro a _
    simp only [Function.comp_apply]
    exact pyLowerChar_idem _
  · intro c hc
    simp only [deriveRepoName, pyLowerStr, pyReplaceCharStr] at hc
    rw [List.mem_map] at hc
    obtain ⟨b, hb, rfl⟩ := hc
    rw [List.mem_map] at hb
    obtain ⟨b0, _, rfl⟩ := hb
    have hbne : (if b0 = ' ' then '-' else b0) ≠ ' ' := by
      by_cases h : b0 = ' ' <;> simp [h]
    exact ⟨pyLowerChar_ne_space _ hbne, isUpper_false_of_not_range _ (pyLowerChar_not_upper_range _)⟩

/-- Witness for C9: the name derived from task "My Task", nonce "N1" and
timestamp 1700000000 is fixed by lower-casing, and its character i is
neither a space nor upper-case. -/
theorem derive_repo_name_properties_witness :
    pyLowerStr (deriveRepoName "My Task" "N1" 1700000000) =
      deriveRepoName "My Task" "N1" 1700000000 ∧
    (Char.ofNat 105 ≠ ' ' ∧ (Char.ofNat 105).isUpper = false) := by
  refine ⟨(derive_repo_name_properties "My Task" "N1" 1700000000).2.1, ?_⟩
  exact (derive_repo_name_properties "My Task" "N1" 1700000000).2.2 (Char.ofNat 105) (by decide)

/-! ## C7: fallback behaviour of the generation client -/

/-- C7: on any upstream failure (non-200 status, raised network exception or
timeout, or an unparsable response body), generate_code returns the fixed
fallback FileSet, whose keys are exactly index.html, style.css, script.js
and README.md and whose value is determined by the brief alone; modify_code
on the corresponding failures instead returns a FileSet containing only the
sentinel error entry; neither function propagates an exception. -/
theorem generation_fallback_contract :
    (∀ (jsonParse : String → Option (List (String × String))) (brief : String)
        (attachments : List (String × String)) (code : Nat) (body : String),
      code ≠ 200 →
      generate_code (.status code body) jsonParse brief attachments = generateFallback brief) ∧
    (∀ (jsonParse : String → Option (List (String × String))) (brief : String)
        (attachments : List (String × String)) (msg : String),
      generate_code (.exception msg) jsonParse brief attachments = generateFallback brief) ∧
    (∀ (jsonParse : String → Option (List (String × String))) (brief : String)
        (attachments : List (String × String)) (body : String),
      jsonParse body = none →
      generate_code (.status 200 body) jsonParse brief attachments = generateFallback brief) ∧
    (∀ brief : String, (generateFallback brief).map Prod.fst =
      ["index.html", "style.css", "script.js", "README.md"]) ∧
    (∀ (jsonParse : String → Option (List (String × String)))
        (modificationRequest repoName : String) (code : Nat) (body : String),
      code ≠ 200 →
      modify_code (.status code body) jsonParse modificationRequest repoName =
        [("error", "Modification failed: API request failed with status " ++ toString code)]) ∧
    (∀ (jsonParse : String → Option (List (String × String)))
        (modificationRequest repoName msg : String),
      modify_code (.exception msg) jsonParse modificationRequest repoName =
        [("error", "Modification failed: " ++ msg)]) ∧
    (∀ (jsonParse : String → Option (List (String × String)))
        (modificationRequest repoName body : String),
      jsonParse body = none →
      modify_code (.status 200 body) jsonParse modificationRequest repoName =
        [("error", "Failed to parse modification response")]) := by
  refine ⟨?_, ?_, ?_, ?_, ?_, ?_, ?_⟩
  · intro jsonParse brief attachments code body h
    simp [generate_code, h]
  · intro jsonParse brief attachments msg
    simp [generate_code]
  · intro jsonParse brief attachments body h
    simp [generate_code, h]
  · intro brief
    rfl
  · intro jsonParse modificationRequest repoName code body h
    simp [modify_code, h]
  · intro jsonParse modificationRequest repoName msg
    simp [modify_code]
  · intro jsonParse modificationRequest repoName body h
    simp [modify_code, h]

/-- Witness for C7 at a concrete failing upstream: a 500 response makes
generate_code return the fallback FileSet and modify_code return only the
sentinel error entry. -/
theorem generation_fallback_contract_witness :
    generate_code (.status 500 "Internal Server Error") (fun _ => none) "b" [] =
      generateFallback "b" ∧
    modify_code (.status 500 "Internal Server Error") (fun _ => none) "m" "r" =
      [("error", "Modification failed: API request failed with status 500")] := by
  constructor
  · exact generation_fallback_contract.1 (fun _ => none) "b" [] 500 "Internal Server Error"
      (by decide)
  · exact generation_fallback_contract.2.2.2.2.1 (fun _ => none) "m" "r" 500
      "Internal Server Error" (by decide)

/-! ## C6: sentinel error entries are skipped by the updater -/

/-- Every call traced by the update loop is a content read or a content
write of a file whose name is an entry key different from the sentinel
"error". -/
theorem updateLoop_trace_shape (w : World) (repoName : String) :
    ∀ (files : List (String × String)) (acc : Option String) (c : ExtCall),
      c ∈ (updateLoop w repoName files acc).2 →
      ∃ f, f ≠ "error" ∧ (c = ExtCall.fileGet f ∨ c = ExtCall.filePut f) := by
  intro files
  induction files with
  | nil =>
    intro acc c hc
    simp [updateLoop] at hc
  | cons hd tl ih =>
    intro acc c hc
    obtain ⟨fname, content⟩ := hd
    by_cases hf : fname = "error"
    · rw [updateLoop, if_pos hf] at hc
      exact ih acc c hc
    · cases hga : w.fileGetApi fname with
      | exception m =>
        simp [updateLoop, hf, hga] at hc
        exact ⟨fname, hf, Or.inl hc⟩
      | status gcode body =>
        by_cases hg : gcode = 200
        · cases hpa : w.filePutApi fname with
          | exception m =>
            simp [updateLoop, hf, hga, hg, hpa] at hc
            rcases hc with h | h
            · exact ⟨fname, hf, Or.inl h⟩
            · exact ⟨fname, hf, Or.inr h⟩
          | status pcode pbody =>
            simp only [updateLoop, hf, hga, hg, hpa, if_neg, if_pos, ite_false, ite_true,
              List.mem_cons] at hc
            rcases hc with h | h | h
            · exact ⟨fname, hf, Or.inl h⟩
            · exact ⟨fname, hf, Or.inr h⟩
            · exact ih _ c h
        · simp only [updateLoop, hf, hga, hg, if_neg, ite_false, List.mem_cons] at hc
          rcases hc with h | h
          · exact ⟨fname, hf, Or.inl h⟩
          · exact ih _ c h

/-- C6: a round-2 FileSet consisting solely of the sentinel error entry
produces zero file update calls and the commit sha "unknown"; in general,
no read or write traced by update_repo ever targets the sentinel "error"
entry. -/
theorem update_repo_sentinel_contract :
    (∀ (w : World) (repoName msg : String),
      update_repo w repoName [("error", msg)] = (.ok "unknown", [])) ∧
    (∀ (w : World) (repoName : String) (files : List (String × String)),
      ExtCall.fileGet "error" ∉ (update_repo w repoName files).2 ∧
      ExtCall.filePut "error" ∉ (update_repo w repoName files).2) := by
  constructor
  · intro w repoName msg
    simp [update_repo, updateLoop, pyOrStr]
  · intro w repoName files
    have htr : (update_repo w repoName files).2 = (updateLoop w repoName files none).2 := by
      unfold update_repo
      rcases hu : updateLoop w repoName files none with ⟨res, tr⟩
      cases res <;> simp
    constructor <;> rw [htr] <;> intro hc
    · obtain ⟨f, hf, hor⟩ := updateLoop_trace_shape w repoName files none _ hc
      rcases hor with h1 | h1 <;> simp_all
    · obtain ⟨f, hf, hor⟩ := updateLoop_trace_shape w repoName files none _ hc
      rcases hor with h1 | h1 <;> simp_all

/-- Witness for C6 at a concrete world and message. -/
theorem update_repo_sentinel_contract_witness :
    update_repo okWorld "testuser/iitm-demo" [("error", "Modification failed: boom")] =
      (.ok "unknown", []) :=
  update_repo_sentinel_contract.1 okWorld "testuser/iitm-demo" "Modification failed: boom"

/-! ## C8: pages-activation fallback -/

/-- Counterexample to C8 as stated: the pages-activation request is not
wrapped in a try block, so when the request itself raises a network-level
exception (here a connection failure, at repository testuser/iitm-demo),
enable_github_pages does not return the fallback URL but propagates the
exception, and the round-1 workflow that was otherwise fully successful
fails with a generic 500 processing error after having made all its earlier
external calls. -/
theorem pages_activation_counterexample :
    enable_github_pages (.exception "Cannot connect to host api.github.com") "testuser/iitm-demo" =
      .error (.other "Cannot connect to host api.github.com") ∧
    main_handle_iitm_task pagesExcWorld okReq1 =
      (.err 500 "Task processing failed: Cannot connect to host api.github.com",
       [.genCode, .createRepo, .filePut "index.html", .filePut "LICENSE",
        .filePut "README.md", .pages]) := by
  constructor
  · rfl
  · rfl

/-- C8 as amended: whenever the pages-activation request completes with any
non-success status (neither 200 nor 201), enable_github_pages returns the
fallback URL https://github.com/repo_name pointing at the bare repository
page and raises nothing; only a network-level exception from the request
itself escapes. -/
theorem pages_activation_fallback_amended :
    ∀ (repoName : String) (code : Nat) (body : String),
      code ≠ 200 → code ≠ 201 →
      enable_github_pages (.status code body) repoName =
        .ok ("https://github.com/" ++ repoName) := by
  intro repoName code body h1 h2
  simp [enable_github_pages, h1, h2]

/-- Witness for the amended C8 at a concrete 404 activation response. -/
theorem pages_activation_fallback_amended_witness :
    enable_github_pages (.status 404 "Not Found") "testuser/iitm-demo" =
      .ok "https://github.com/testuser/iitm-demo" :=
  pages_activation_fallback_amended "testuser/iitm-demo" 404 "Not Found"
    (by decide) (by decide)

/-! ## C2: commit identifier of a publish batch -/

/-- Counterexample to C2 as stated: in the batch a.html, b.html, LICENSE,
README.md where only the write of b.html succeeds (with commit sha
9c9f2c4e) and every other write fails, the publisher returns "unknown" and
not the sha of the first successful write, because a failed write returns
the truthy string "unknown" which the first-sha latch accepts. -/
theorem first_write_commit_counterexample :
    (add_files_to_repo cexPutApi cexPutSha "testuser/iitm-demo" cexCodeFiles
      "brief" "task" "e@x").1 = .ok "unknown" ∧
    firstSuccessSha cexPutApi cexPutSha
      (publishBatch cexCodeFiles "brief" "task" "e@x" "testuser/iitm-demo") =
      some "9c9f2c4e" ∧
    ("unknown" : String) ≠ "9c9f2c4e" := by
  refine ⟨rfl, rfl, by decide⟩

/-- Up-serting a key into a non-empty association list keeps the key of the
head entry. -/
theorem dictUpsert_cons_key (f c : String) (rest : List (String × String)) (k v : String) :
    ∃ c2 rest2, dictUpsert ((f, c) :: rest) k v = (f, c2) :: rest2 := by
  by_cases h : f = k
  · exact ⟨v, rest, by simp [dictUpsert, h]⟩
  · exact ⟨c, dictUpsert rest k v, by simp [dictUpsert, h]⟩

/-- Once the commit-sha latch holds a non-empty sha, the rest of the write
loop never changes it (as long as no write raises). -/
theorem addFilesLoop_locked (putApi : String → ApiResult) (putSha : String → String)
    (repoName : String) :
    ∀ (files : List (String × String)) (s : String), s ≠ "" →
      (∀ g m, putApi g ≠ .exception m) →
      (addFilesLoop putApi putSha repoName files (some s)).1 = .ok (some s) := by
  intro files
  induction files with
  | nil => intro s hs hno; rfl
  | cons hd tl ih =>
    intro s hs hno
    obtain ⟨fname, content⟩ := hd
    cases hpa : putApi fname with
    | exception m => exact absurd hpa (hno fname m)
    | status code body =>
      have hstep : add_file_to_repo putApi putSha repoName fname =
          .ok (if code = 200 ∨ code = 201 then putSha fname else "unknown") := by
        rw [add_file_to_repo, hpa]
      have hfa : pyFalsyOptStr (some s) = false := by
        simp [pyFalsyOptStr, hs]
      simp [addFilesLoop, hstep, hfa]
      exact ih s hs hno

/-- C2 as amended: for every publish batch and write oracle in which no
write raises and every successful write reports a non-empty sha, the
returned commit identifier is the result of the first file write of the
batch — its commit sha when it succeeds, the string "unknown" when it fails
— regardless of the ordering, success, or failure of all other writes. -/
theorem first_write_commit_amended :
    ∀ (putApi : String → ApiResult) (putSha : String → String)
      (repoName brief task email f c : String) (rest : List (String × String)) (r : String),
      (∀ g m, putApi g ≠ .exception m) →
      (∀ g, putSha g ≠ "") →
      add_file_to_repo putApi putSha repoName f = .ok r →
      (add_files_to_repo putApi putSha repoName ((f, c) :: rest) brief task email).1 = .ok r := by
  intro putApi putSha repoName brief task email f c rest r hno hsha hr
  have hrne : r ≠ "" := by
    cases hpa : putApi f with
    | exception m => exact absurd hpa (hno f m)
    | status code body =>
      rw [add_file_to_repo, hpa] at hr
      have := Except.ok.inj hr
      subst this
      by_cases hcode : code = 200 ∨ code = 201
      · simpa [hcode] using hsha f
      · simp [hcode]
  obtain ⟨c1, rest1, h1⟩ := dictUpsert_cons_key f c rest "LICENSE" create_mit_license
  obtain ⟨c2, rest2, h2⟩ :=
    dictUpsert_cons_key f c1 rest1 "README.md"
      (create_comprehensive_readme brief task email repoName)
  have hstep : (addFilesLoop putApi putSha repoName ((f, c2) :: rest2) none).1 = .ok (some r) := by
    have hfa : pyFalsyOptStr (none : Option String) = true := rfl
    have htr : pyTruthyStr r = true := by
      simp [pyTruthyStr, hrne]
    simp [addFilesLoop, hr, htr, hfa]
    exact addFilesLoop_locked putApi putSha repoName rest2 r hrne hno
  unfold add_files_to_repo
  rw [h1, h2]
  rcases hl : addFilesLoop putApi putSha repoName ((f, c2) :: rest2) none with ⟨res, tr⟩
  rw [hl] at hstep
  simp only at hstep
  subst hstep
  dsimp only
  rw [hl]
  simp [pyOrStr, hrne]

/-- Witness for the amended C2: a batch whose first write succeeds with sha
sha-1 publishes commit identifier sha-1. -/
theorem first_write_commit_amended_witness :
    (add_files_to_repo (fun _ => .status 201 "created") (fun _ => "sha-1") "r"
      [("a.html", "x"), ("b.html", "y")] "brief" "task" "e@x").1 = .ok "sha-1" :=
  first_write_commit_amended (fun _ => .status 201 "created") (fun _ => "sha-1") "r"
    "brief" "task" "e@x" "a.html" "x" [("b.html", "y")] "sha-1"
    (fun _ _ h => ApiResult.noConfusion h)
    (fun g => by change ("sha-1" : String) ≠ ""; decide) rfl

/-! ## C3, C4, C5: the endpoint gates -/

/-- The app.py endpoint body always raises before performing any external
call: its trace is empty and its result is never a success body. -/
theorem app_body_trace_empty (w : World) (req : Req) :
    (app_body w req).2 = [] ∧ ∀ body, (app_body w req).1 ≠ .ok body := by
  rw [app_body]
  by_cases h1 : req.secret ≠ w.expectedSecret
  · rw [if_pos h1]
    exact ⟨rfl, fun body h => by cases h⟩
  · rw [if_neg h1]
    by_cases h2 : req.round = 1
    · rw [if_pos h2, if_pos (by decide)]
      exact ⟨rfl, fun body h => by cases h⟩
    · rw [if_neg h2]
      by_cases h3 : req.round = 2
      · rw [if_pos h3]
        by_cases h4 : pyTruthyStr req.repo_name = false
        · rw [if_pos h4]
          exact ⟨rfl, fun body h => by cases h⟩
        · rw [if_neg h4, if_pos (by decide)]
          exact ⟨rfl, fun body h => by cases h⟩
      · rw [if_neg h3]
        exact ⟨rfl, fun body h => by cases h⟩

/-- C3: for every request whose secret differs from the configured secret,
each of the three endpoints performs no external call and fails before
reading any other field; however the surfaced status is 500, not 401,
because the HTTPException(401, "Invalid secret") raised inside the try
block is caught by the generic except clause and re-raised as a 500
processing failure (the security test in test_api.py expects 401 here). -/
theorem secret_gate_contract :
    ∀ (w : World) (req : Req), req.secret ≠ w.expectedSecret →
      app_handle_iitm_task w req =
        (.err 500 "Task processing failed: 401: Invalid secret", []) ∧
      main_handle_iitm_task w req =
        (.err 500 "Task processing failed: 401: Invalid secret", []) ∧
      main_handle_round2 w req =
        (.err 500 "Round 2 processing failed: 401: Invalid secret", []) := by
  intro w req h
  refine ⟨?_, ?_, ?_⟩
  · rw [app_handle_iitm_task, app_body, if_pos h]
    rfl
  · rw [main_handle_iitm_task, main_task_body, if_pos h]
    rfl
  · rw [main_handle_round2, main_round2_body, if_pos h]
    rfl

/-- Witness for C3 at the concrete security-test request (secret
"invalid_secret" against configured secret "test_secret_123"). -/
theorem secret_gate_contract_witness :
    app_handle_iitm_task okWorld badSecretReq =
      (.err 500 "Task processing failed: 401: Invalid secret", []) ∧
    main_handle_iitm_task okWorld badSecretReq =
      (.err 500 "Task processing failed: 401: Invalid secret", []) ∧
    main_handle_round2 okWorld badSecretReq =
      (.err 500 "Round 2 processing failed: 401: Invalid secret", []) :=
  secret_gate_contract okWorld badSecretReq (by decide)

/-- C4: through the app.py /api-endpoint, every authorized round-1 request
fails with a 500 carrying the TypeError text of the 3-argument call to the
2-parameter generate_code, every authorized round-2 request with a
repo_name fails likewise on modify_code, and in general this endpoint
performs no external call and never returns a success body: its round-1
and round-2 success responses are unreachable. -/
theorem app_endpoint_arity_bug :
    ∀ (w : World) (req : Req),
      (req.secret = w.expectedSecret → req.round = 1 →
        app_handle_iitm_task w req =
          (.err 500 "Task processing failed: generate_code() takes from 1 to 2 positional arguments but 3 were given", [])) ∧
      (req.secret = w.expectedSecret → req.round = 2 → req.repo_name ≠ "" →
        app_handle_iitm_task w req =
          (.err 500 "Task processing failed: modify_code() takes 2 positional arguments but 3 were given", [])) ∧
      (app_handle_iitm_task w req).2 = [] ∧
      (∀ body, (app_handle_iitm_task w req).1 ≠ .ok body) := by
  intro w req
  refine ⟨?_, ?_, ?_, ?_⟩
  · intro hs h1
    rw [app_handle_iitm_task, app_body, if_neg (fun hne => hne hs), if_pos h1,
      if_pos (by decide)]
    rfl
  · intro hs h2 hrep
    rw [app_handle_iitm_task, app_body, if_neg (fun hne => hne hs),
      if_neg (by simp [h2]), if_pos h2, if_neg (by simp [pyTruthyStr, hrep]),
      if_pos (by decide)]
    rfl
  · rw [app_handle_iitm_task]
    rcases hb : app_body w req with ⟨res, tr⟩
    have hempty := (app_body_trace_empty w req).1
    rw [hb] at hempty
    cases res with
    | ok body => exact hempty
    | error e => exact hempty
  · intro body h
    rw [app_handle_iitm_task] at h
    rcases hb : app_body w req with ⟨res, tr⟩
    have hok := (app_body_trace_empty w req).2
    rw [hb] at h hok
    cases res with
    | ok b => exact hok b rfl
    | error e => cases h

/-- Witness for C4: concrete authorized round-1 and round-2 requests
through the app.py endpoint both fail with the TypeError-derived 500 and
an empty call trace. -/
theorem app_endpoint_arity_bug_witness :
    app_handle_iitm_task okWorld okReq1 =
      (.err 500 "Task processing failed: generate_code() takes from 1 to 2 positional arguments but 3 were given", []) ∧
    app_handle_iitm_task okWorld okReq2 =
      (.err 500 "Task processing failed: modify_code() takes 2 positional arguments but 3 were given", []) := by
  constructor
  · exact (app_endpoint_arity_bug okWorld okReq1).1 rfl rfl
  · exact (app_endpoint_arity_bug okWorld okReq2).2.1 rfl rfl (by decide)

/-- C5: the validation failures are raised as HTTPException(400) in app.py
but surface as 500 because the generic except clause re-wraps them: an
authorized request with a round other than 1 and 2, and an authorized
round-2 request without repo_name, both produce a 500 (not 400) carrying
the 400 detail text, with no external call; and the main.py round-2
endpoint never produces any 400 at all and proceeds into the modify flow
without validating repo_name. -/
theorem validation_error_contract :
    ∀ (w : World) (req : Req),
      (req.secret = w.expectedSecret → req.round ≠ 1 → req.round ≠ 2 →
        app_handle_iitm_task w req =
          (.err 500 "Task processing failed: 400: Invalid round number. Must be 1 or 2", [])) ∧
      (req.secret = w.expectedSecret → req.round = 2 → req.repo_name = "" →
        app_handle_iitm_task w req =
          (.err 500 "Task processing failed: 400: repo_name required for round 2", [])) ∧
      (∀ st d, (main_handle_round2 w req).1 = .err st d → st = 500) ∧
      (req.secret = w.expectedSecret →
        ∃ rest, (main_handle_round2 w req).2 = .modCode :: rest) := by
  intro w req
  refine ⟨?_, ?_, ?_, ?_⟩
  · intro hs h1 h2
    rw [app_handle_iitm_task, app_body, if_neg (fun hne => hne hs), if_neg h1, if_neg h2]
    rfl
  · intro hs h2 hrep
    rw [app_handle_iitm_task, app_body, if_neg (fun hne => hne hs),
      if_neg (by simp [h2]), if_pos h2, if_pos (by simp [pyTruthyStr, hrep])]
    rfl
  · intro st d h
    rw [main_handle_round2] at h
    rcases hb : main_round2_body w req with ⟨res, tr⟩
    rw [hb] at h
    cases res with
    | ok body => simp [wrapHandler] at h
    | error e =>
      simp [wrapHandler] at h
      exact h.1.symm
  · intro hs
    rw [main_handle_round2, main_round2_body, if_neg (fun hne => hne hs), round2Flow]
    dsimp only
    rcases hu : update_repo w req.repo_name
        (modify_code w.llmApi w.jsonParse req.modification req.repo_name) with ⟨res, tr⟩
    cases res with
    | ok sha =>
      simp only [wrapHandler]
      exact ⟨_, rfl⟩
    | error e =>
      simp only [wrapHandler]
      exact ⟨_, rfl⟩

/-- Witness for C5: a concrete authorized round-3 request and an authorized
round-2 request without repo_name both surface as 500 through the app.py
endpoint, and the main.py round-2 endpoint processes the latter without
any validation, its trace starting with the modification call. -/
theorem validation_error_contract_witness :
    app_handle_iitm_task okWorld round3Req =
      (.err 500 "Task processing failed: 400: Invalid round number. Must be 1 or 2", []) ∧
    app_handle_iitm_task okWorld noRepoReq2 =
      (.err 500 "Task processing failed: 400: repo_name required for round 2", []) ∧
    (∃ rest, (main_handle_round2 okWorld noRepoReq2).2 = ExtCall.modCode :: rest) := by
  refine ⟨?_, ?_, ?_⟩
  · exact (validation_error_contract okWorld round3Req).1 rfl (by decide) (by decide)
  · exact (validation_error_contract okWorld noRepoReq2).2.1 rfl rfl rfl
  · exact (validation_error_contract okWorld noRepoReq2).2.2.2 rfl

/-! ## C10: evaluation payload shape -/

/-- A handler response keeps the trace of its body. -/
theorem wrapHandler_trace (pre : String)
    (x : Except PyExc (List (String × JVal)) × List ExtCall) :
    (wrapHandler pre x).2 = x.2 := by
  rcases x with ⟨res, tr⟩
  cases res <;> rfl

/-- The trace of update_repo is the trace of its loop. -/
theorem update_repo_trace_eq (w : World) (repoName : String)
    (files : List (String × String)) :
    (update_repo w repoName files).2 = (updateLoop w repoName files none).2 := by
  unfold update_repo
  rcases hu : updateLoop w repoName files none with ⟨res, tr⟩
  cases res <;> simp

/-- Every call traced by the write loop of the publisher is a file write. -/
theorem addFilesLoop_trace_shape (putApi : String → ApiResult) (putSha : String → String)
    (repoName : String) :
    ∀ (files : List (String × String)) (acc : Option String) (c : ExtCall),
      c ∈ (addFilesLoop putApi putSha repoName files acc).2 → ∃ f, c = ExtCall.filePut f := by
  intro files
  induction files with
  | nil =>
    intro acc c hc
    simp [addFilesLoop] at hc
  | cons hd tl ih =>
    intro acc c hc
    obtain ⟨fname, content⟩ := hd
    cases hfa : add_file_to_repo putApi putSha repoName fname with
    | error e =>
      simp [addFilesLoop, hfa] at hc
      exact ⟨fname, hc⟩
    | ok sha =>
      simp only [addFilesLoop, hfa, List.mem_cons] at hc
      rcases hc with h | h
      · exact ⟨fname, h⟩
      · exact ih _ c h

/-- Every call traced by add_files_to_repo is a file write. -/
theorem add_files_to_repo_trace_shape (putApi : String → ApiResult) (putSha : String → String)
    (repoName : String) (codeFiles : List (String × String)) (brief task email : String) :
    ∀ c ∈ (add_files_to_repo putApi putSha repoName codeFiles brief task email).2,
      ∃ f, c = ExtCall.filePut f := by
  intro c hc
  unfold add_files_to_repo at hc
  dsimp only at hc
  rcases hl : addFilesLoop putApi putSha repoName
      (dictUpsert (dictUpsert codeFiles "LICENSE" create_mit_license) "README.md"
        (create_comprehensive_readme brief task email repoName)) none with ⟨res, tr⟩
  rw [hl] at hc
  have htr : tr = (addFilesLoop putApi putSha repoName
      (dictUpsert (dictUpsert codeFiles "LICENSE" create_mit_license) "README.md"
        (create_comprehensive_readme brief task email repoName)) none).2 := by
    rw [hl]
  cases res with
  | ok acc =>
    simp only at hc
    exact addFilesLoop_trace_shape putApi putSha repoName _ none c (htr ▸ hc)
  | error e =>
    simp only at hc
    exact addFilesLoop_trace_shape putApi putSha repoName _ none c (htr ▸ hc)

/-- Every call traced by create_repo is the repository creation itself or a
file write. -/
theorem create_repo_trace_shape (w : World) (repoName : String)
    (codeFiles : List (String × String)) (brief task email : String) :
    ∀ c ∈ (create_repo w repoName codeFiles brief task email).2,
      c = ExtCall.createRepo ∨ ∃ f, c = ExtCall.filePut f := by
  intro c hc
  unfold create_repo at hc
  cases hca : w.createApi with
  | exception m =>
    simp [hca] at hc
    exact Or.inl hc
  | status code body =>
    by_cases hcode : code = 201
    · subst hcode
      rcases haf : add_files_to_repo w.filePutApi w.filePutSha repoName codeFiles
          brief task email with ⟨res, tr⟩
      have htr : tr = (add_files_to_repo w.filePutApi w.filePutSha repoName codeFiles
          brief task email).2 := by rw [haf]
      cases res with
      | error e =>
        simp only [hca, haf, if_true, List.mem_cons] at hc
        rcases hc with h | h
        · exact Or.inl h
        · exact Or.inr (add_files_to_repo_trace_shape w.filePutApi w.filePutSha repoName
            codeFiles brief task email c (htr ▸ h))
      | ok sha =>
        simp only [hca, haf, if_true, List.mem_cons] at hc
        rcases hc with h | h
        · exact Or.inl h
        · exact Or.inr (add_files_to_repo_trace_shape w.filePutApi w.filePutSha repoName
            codeFiles brief task email c (htr ▸ h))
    · simp [hca, hcode] at hc
      exact Or.inl hc

/-- Every entry of the callback trace is a callback carrying the given
payload. -/
theorem callbackTrace_mem (w : World) (payload : List (String × JVal)) :
    ∀ c ∈ callbackTrace w payload, c = ExtCall.callback payload := by
  intro c hc
  exact List.eq_of_mem_replicate hc

/-- Every payload delivered by the round-2 flow is the seven-field
evaluation payload whose pages_url is derived syntactically from repo_name,
and the flow never calls the pages activator. -/
theorem round2Flow_trace_shape (w : World) (req : Req) (instr : String) :
    (∀ p, ExtCall.callback p ∈ (round2Flow w req instr).2 →
      ∃ commitSha, p = evaluationPayload req.email req.task 2 req.nonce
        ("https://github.com/" ++ req.repo_name) commitSha
        (pagesUrlFromRepoName req.repo_name)) ∧
    ExtCall.pages ∉ (round2Flow w req instr).2 := by
  rw [round2Flow]
  dsimp only
  rcases hu : update_repo w req.repo_name
      (modify_code w.llmApi w.jsonParse instr req.repo_name) with ⟨res, tr⟩
  have htr : tr = (update_repo w req.repo_name
      (modify_code w.llmApi w.jsonParse instr req.repo_name)).2 := by rw [hu]
  have hshape : ∀ c ∈ tr, ∃ f, f ≠ "error" ∧
      (c = ExtCall.fileGet f ∨ c = ExtCall.filePut f) := by
    intro c hc
    rw [htr, update_repo_trace_eq] at hc
    exact updateLoop_trace_shape w req.repo_name _ none c hc
  cases res with
  | error e =>
    constructor
    · intro p hp
      simp only [List.mem_cons] at hp
      rcases hp with h | h
      · cases h
      · obtain ⟨f, _, hor⟩ := hshape _ h
        rcases hor with h1 | h1 <;> cases h1
    · intro hp
      simp only [List.mem_cons] at hp
      rcases hp with h | h
      · cases h
      · obtain ⟨f, _, hor⟩ := hshape _ h
        rcases hor with h1 | h1 <;> cases h1
  | ok commitSha =>
    constructor
    · intro p hp
      simp only [List.mem_cons, List.mem_append] at hp
      rcases hp with (h | h) | h
      · cases h
      · obtain ⟨f, _, hor⟩ := hshape _ h
        rcases hor with h1 | h1 <;> cases h1
      · by_cases he : pyTruthyStr req.evaluation_url = true
        · rw [if_pos he] at h
          have := callbackTrace_mem w _ _ h
          exact ⟨commitSha, (ExtCall.callback.inj this.symm).symm⟩
        · rw [if_neg he] at h
          cases h
    · intro hp
      simp only [List.mem_cons, List.mem_append] at hp
      rcases hp with (h | h) | h
      · cases h
      · obtain ⟨f, _, hor⟩ := hshape _ h
        rcases hor with h1 | h1 <;> cases h1
      · by_cases he : pyTruthyStr req.evaluation_url = true
        · rw [if_pos he] at h
          cases callbackTrace_mem w _ _ h
        · rw [if_neg he] at h
          cases h

/-- Every payload delivered by the round-1 flow is the seven-field
evaluation payload. -/
theorem round1Flow_callback_shape (w : World) (req : Req) :
    ∀ p, ExtCall.callback p ∈ (round1Flow w req).2 →
      ∃ repoUrl commitSha pagesUrl,
        p = evaluationPayload req.email req.task 1 req.nonce repoUrl commitSha pagesUrl := by
  intro p hp
  rw [round1Flow] at hp
  dsimp only at hp
  rcases hcr : create_repo w (deriveRepoName req.task req.nonce w.timestamp)
      (generate_code w.llmApi w.jsonParse req.brief req.attachments)
      req.brief req.task req.email with ⟨res, tr⟩
  rw [hcr] at hp
  have htr : tr = (create_repo w (deriveRepoName req.task req.nonce w.timestamp)
      (generate_code w.llmApi w.jsonParse req.brief req.attachments)
      req.brief req.task req.email).2 := by rw [hcr]
  have hshape : ∀ c ∈ tr, c = ExtCall.createRepo ∨ ∃ f, c = ExtCall.filePut f := by
    intro c hc
    exact create_repo_trace_shape w _ _ _ _ _ c (htr ▸ hc)
  cases res with
  | error e =>
    simp only [List.mem_cons] at hp
    rcases hp with h | h
    · cases h
    · rcases hshape _ h with h1 | ⟨f, h1⟩ <;> cases h1
  | ok pr =>
    obtain ⟨repoUrl, commitSha⟩ := pr
    dsimp only at hp
    revert hp
    generalize enable_github_pages w.pagesApi
        (fullRepoNameOf repoUrl (deriveRepoName req.task req.nonce w.timestamp)) = pg
    intro hp
    cases pg with
    | error e =>
      simp only [List.mem_cons, List.mem_append] at hp
      rcases hp with (h | h) | h
      · cases h
      · rcases hshape _ h with h1 | ⟨f, h1⟩ <;> cases h1
      · exact absurd h (by simp)
    | ok pagesUrl =>
      simp only [List.mem_cons, List.mem_append] at hp
      rcases hp with ((h | h) | h) | h
      · cases h
      · rcases hshape _ h with h1 | ⟨f, h1⟩ <;> cases h1
      · exact absurd h (by simp)
      · by_cases he : pyTruthyStr req.evaluation_url = true
        · rw [if_pos he] at h
          have := callbackTrace_mem w _ _ h
          exact ⟨repoUrl, commitSha, pagesUrl, (ExtCall.callback.inj this.symm).symm⟩
        · rw [if_neg he] at h
          cases h

/-- Splitting at the first separator after a separator-free prefix yields
that prefix and the remainder. -/
theorem pySplitOnceAux_sep (sep : Char) :
    ∀ (a b : List Char), (∀ c ∈ a, c ≠ sep) →
      pySplitOnceAux sep (a ++ sep :: b) = (a, b) := by
  intro a
  induction a with
  | nil =>
    intro b h
    simp [pySplitOnceAux]
  | cons x xs ih =>
    intro b h
    have hx : x ≠ sep := h x (List.mem_cons_self x xs)
    simp only [List.cons_append, pySplitOnceAux, if_neg hx, List.append_eq]
    rw [ih b (fun c hc => h c (List.mem_cons_of_mem x hc))]

/-- The pages URL of a slash-qualified repository name owner/repo, for an
owner containing no slash, is https://owner.github.io/repo/. -/
theorem pagesUrl_syntactic :
    ∀ (owner repo : String), pyInChar (Char.ofNat 47) owner = false →
      pagesUrlFromRepoName (owner ++ "/" ++ repo) =
        "https://" ++ owner ++ ".github.io/" ++ repo ++ "/" := by
  intro owner repo h
  have hdata : (owner ++ "/" ++ repo).data = owner.data ++ Char.ofNat 47 :: repo.data := by
    show (owner.data ++ [Char.ofNat 47]) ++ repo.data = _
    rw [List.append_assoc]
    rfl
  have hmem : Char.ofNat 47 ∈ (owner ++ "/" ++ repo).data := by
    rw [hdata]
    exact List.mem_append_right _ (List.mem_cons_self _ _)
  have hin : pyInChar (Char.ofNat 47) (owner ++ "/" ++ repo) = true := by
    unfold pyInChar
    exact List.elem_iff.mpr hmem
  have hnot : ∀ c ∈ owner.data, c ≠ Char.ofNat 47 := by
    intro c hc heq
    subst heq
    unfold pyInChar at h
    have hc2 : owner.data.contains (Char.ofNat 47) = true := List.elem_iff.mpr hc
    rw [h] at hc2
    exact Bool.noConfusion hc2
  have hsplit : pySplitOnce (Char.ofNat 47) (owner ++ "/" ++ repo) = (owner, repo) := by
    unfold pySplitOnce
    rw [hdata, pySplitOnceAux_sep (Char.ofNat 47) owner.data repo.data hnot]
  unfold pagesUrlFromRepoName
  rw [if_pos hin]
  dsimp only
  rw [hsplit]

/-- C10: every notification payload delivered by the handlers that reach
the evaluator is exactly the seven-field object email, task, round, nonce,
repo_url, commit_sha, pages_url, in that order and with no other fields;
for round 2 its pages_url is derived purely syntactically from repo_name
(owner/repo becomes https://owner.github.io/repo/) and the round-2 handler
never invokes the pages activator. -/
theorem evaluation_payload_contract :
    ∀ (w : World) (req : Req),
      (∀ p, ExtCall.callback p ∈ (main_handle_round2 w req).2 →
        p.map Prod.fst =
          ["email", "task", "round", "nonce", "repo_url", "commit_sha", "pages_url"] ∧
        p.lookup "pages_url" = some (.s (pagesUrlFromRepoName req.repo_name))) ∧
      ExtCall.pages ∉ (main_handle_round2 w req).2 ∧
      (∀ p, ExtCall.callback p ∈ (main_handle_iitm_task w req).2 →
        p.map Prod.fst =
          ["email", "task", "round", "nonce", "repo_url", "commit_sha", "pages_url"]) ∧
      (∀ owner repo : String, pyInChar (Char.ofNat 47) owner = false →
        pagesUrlFromRepoName (owner ++ "/" ++ repo) =
          "https://" ++ owner ++ ".github.io/" ++ repo ++ "/") := by
  intro w req
  have htr2 : (main_handle_round2 w req).2 = (main_round2_body w req).2 := by
    rw [main_handle_round2]
    exact wrapHandler_trace _ _
  have htr1 : (main_handle_iitm_task w req).2 = (main_task_body w req).2 := by
    rw [main_handle_iitm_task]
    exact wrapHandler_trace _ _
  refine ⟨?_, ?_, ?_, pagesUrl_syntactic⟩
  · intro p hp
    rw [htr2, main_round2_body] at hp
    by_cases hs : req.secret ≠ w.expectedSecret
    · rw [if_pos hs] at hp
      simp at hp
    · rw [if_neg hs] at hp
      obtain ⟨cs, rfl⟩ := (round2Flow_trace_shape w req req.modification).1 p hp
      exact ⟨rfl, rfl⟩
  · intro hp
    rw [htr2, main_round2_body] at hp
    by_cases hs : req.secret ≠ w.expectedSecret
    · rw [if_pos hs] at hp
      simp at hp
    · rw [if_neg hs] at hp
      exact (round2Flow_trace_shape w req req.modification).2 hp
  · intro p hp
    rw [htr1, main_task_body] at hp
    by_cases hs : req.secret ≠ w.expectedSecret
    · rw [if_pos hs] at hp
      simp at hp
    · rw [if_neg hs] at hp
      obtain ⟨ru, cs, pu, rfl⟩ := round1Flow_callback_shape w req p hp
      rfl

/-- Witness for C10: the payload delivered by a concrete successful round-2
request carries exactly the seven fields, its pages_url is the syntactic
derivation for testuser/iitm-demo, and that derivation splits the name at
its slash. -/
theorem evaluation_payload_contract_witness :
    (evaluationPayload "student@example.com" "captcha-solver" 2 "ab12"
        "https://github.com/testuser/iitm-demo" "sha-put"
        (pagesUrlFromRepoName "testuser/iitm-demo")).map Prod.fst =
      ["email", "task", "round", "nonce", "repo_url", "commit_sha", "pages_url"] ∧
    (evaluationPayload "student@example.com" "captcha-solver" 2 "ab12"
        "https://github.com/testuser/iitm-demo" "sha-put"
        (pagesUrlFromRepoName "testuser/iitm-demo")).lookup "pages_url" =
      some (.s (pagesUrlFromRepoName "testuser/iitm-demo")) ∧
    pagesUrlFromRepoName ("testuser" ++ "/" ++ "iitm-demo") =
      "https://" ++ "testuser" ++ ".github.io/" ++ "iitm-demo" ++ "/" := by
  obtain ⟨h1, h2⟩ := (evaluation_payload_contract okWorld okReq2).1
    (evaluationPayload "student@example.com" "captcha-solver" 2 "ab12"
      "https://github.com/testuser/iitm-demo" "sha-put"
      (pagesUrlFromRepoName "testuser/iitm-demo"))
    (by decide)
  exact ⟨h1, h2, (evaluation_payload_contract okWorld okReq2).2.2.2 "testuser" "iitm-demo"
    (by decide)⟩
